import Mathlib

/-!
Formal model of the Desktop-Time-Tracker core tracking engine.

The Python sources are shallowly embedded as pure Lean functions:
wall-clock time is passed explicitly as whole seconds (Nat), durations
computed by the code as Python ints are Int, float quantities are Rat,
Qt signal emissions are returned as explicit event lists, database calls
are returned as explicit operation lists, and operations that would
dereference a None (impossible under the tracker invariants) return
Option.none instead of raising.
-/

/-! ## Data model (src/database/models.py) -/

/-- States of the time tracker (src/core/tracker.py, TrackerState). -/
inductive TrackerState
  | STOPPED
  | RUNNING
  | PAUSED
deriving DecidableEq, Repr

/-- A time tracking entry (src/database/models.py, TimeEntry).
Timestamps are whole seconds; created_at is filled with the creation
time by the dataclass post-init hook. -/
structure TimeEntry where
  id : Option Nat := none
  task_id : Nat := 0
  start_time : Option Nat := none
  end_time : Option Nat := none
  duration_seconds : Int := 0
  activity_percentage : Rat := 0
  notes : String := ""
  is_manual : Bool := false
  created_at : Option Nat := none
deriving DecidableEq, Repr

/-- Qt signals emitted by TimeTracker, modelled as explicit events. -/
inductive TrackerEvent
  | state_changed (s : TrackerState)
  | time_updated (seconds : Int)
  | entry_saved (id : Option Nat)
deriving DecidableEq, Repr

/-- Database-manager calls issued by TimeTracker, modelled as explicit
operations. -/
inductive DbOp
  | add_time_entry (e : TimeEntry)
  | update_time_entry (e : TimeEntry)
  | delete_time_entry (id : Nat)
deriving DecidableEq, Repr

/-! ## TimeTracker (src/core/tracker.py) -/

/-- In-memory state of the TimeTracker object; timer_running models
whether the 1-second QTimer is active. -/
structure TimeTracker where
  state : TrackerState
  current_entry : Option TimeEntry
  start_time : Option Nat
  pause_time : Option Nat
  paused_duration : Int
  elapsed_seconds : Int
  activity_samples : List Rat
  timer_running : Bool
deriving DecidableEq, Repr

/-- Field values set by the TimeTracker constructor before crash
recovery runs. -/
def TimeTracker.init : TimeTracker :=
  { state := TrackerState.STOPPED
    current_entry := none
    start_time := none
    pause_time := none
    paused_duration := 0
    elapsed_seconds := 0
    activity_samples := []
    timer_running := false }

/-- Finalized paused duration at stop time: the accumulated value plus
the in-progress pause, if any (tracker.py lines 164-165). -/
def TimeTracker.final_paused (t : TimeTracker) (now : Nat) : Int :=
  match t.pause_time with
  | some p => t.paused_duration + ((now : Int) - (p : Int))
  | none => t.paused_duration

/-- Mean of the recorded activity samples, 0 when none were recorded
(tracker.py lines 170-173). -/
def mean_activity (samples : List Rat) : Rat :=
  if samples = [] then 0 else samples.sum / (samples.length : Rat)

/-- TimeTracker.start. Returns none only on the unreachable path where
the PAUSED state has no pause timestamp (a None subtraction in Python).
new_id models the id handed back by db add_time_entry. -/
def TimeTracker.start (t : TimeTracker) (task_id : Nat) (now : Nat) (new_id : Nat) :
    Option (TimeTracker × List TrackerEvent × List DbOp × Bool) :=
  if t.state = TrackerState.RUNNING then
    some (t, [], [], false)
  else if t.state = TrackerState.PAUSED then
    match t.pause_time with
    | none => none
    | some p =>
      some ({ t with
                paused_duration := t.paused_duration + ((now : Int) - (p : Int))
                pause_time := none
                state := TrackerState.RUNNING
                timer_running := true },
            [TrackerEvent.state_changed TrackerState.RUNNING], [], true)
  else
    let entry0 : TimeEntry :=
      { task_id := task_id, start_time := some now, created_at := some now }
    let entry : TimeEntry := { entry0 with id := some new_id }
    some ({ state := TrackerState.RUNNING
            current_entry := some entry
            start_time := some now
            pause_time := none
            paused_duration := 0
            elapsed_seconds := 0
            activity_samples := []
            timer_running := true },
          [TrackerEvent.state_changed TrackerState.RUNNING, TrackerEvent.time_updated 0],
          [DbOp.add_time_entry entry0], true)

/-- TimeTracker.pause. -/
def TimeTracker.pause (t : TimeTracker) (now : Nat) :
    TimeTracker × List TrackerEvent × List DbOp × Bool :=
  if t.state ≠ TrackerState.RUNNING then
    (t, [], [], false)
  else
    ({ t with pause_time := some now, state := TrackerState.PAUSED, timer_running := false },
     [TrackerEvent.state_changed TrackerState.PAUSED], [], true)

/-- TimeTracker.resume. Returns none only on the unreachable
missing-pause-timestamp path. -/
def TimeTracker.resume (t : TimeTracker) (now : Nat) :
    Option (TimeTracker × List TrackerEvent × List DbOp × Bool) :=
  if t.state ≠ TrackerState.PAUSED then
    some (t, [], [], false)
  else
    match t.pause_time with
    | none => none
    | some p =>
      some ({ t with
                paused_duration := t.paused_duration + ((now : Int) - (p : Int))
                pause_time := none
                state := TrackerState.RUNNING
                timer_running := true },
            [TrackerEvent.state_changed TrackerState.RUNNING], [], true)

/-- TimeTracker.stop. Returns the finalized entry id; none models the
unreachable paths where start time or current entry are missing while
not STOPPED. -/
def TimeTracker.stop (t : TimeTracker) (notes : String) (now : Nat) :
    Option (TimeTracker × List TrackerEvent × List DbOp × Option Nat) :=
  if t.state = TrackerState.STOPPED then
    some (t, [], [], none)
  else
    match t.start_time, t.current_entry with
    | some st, some e =>
      let total_seconds : Int := (now : Int) - (st : Int)
      let active_seconds : Int := total_seconds - t.final_paused now
      let e2 : TimeEntry :=
        { e with
            end_time := some now
            duration_seconds := max 0 active_seconds
            activity_percentage := mean_activity t.activity_samples
            notes := notes }
      some ({ state := TrackerState.STOPPED
              current_entry := none
              start_time := none
              pause_time := none
              paused_duration := 0
              elapsed_seconds := 0
              activity_samples := []
              timer_running := false },
            [TrackerEvent.state_changed TrackerState.STOPPED, TrackerEvent.entry_saved e.id],
            [DbOp.update_time_entry e2], e.id)
    | _, _ => none

/-- TimeTracker recover-active-entry (crash recovery), run from the
constructor on the freshly initialized state. active is the result of
db get_active_time_entry. -/
def TimeTracker.recover_active_entry (t : TimeTracker) (active : Option TimeEntry)
    (now : Nat) : Option (TimeTracker × List TrackerEvent) :=
  match active with
  | none => some (t, [])
  | some e =>
    match e.start_time with
    | none => none
    | some st =>
      let elapsed : Int := (now : Int) - (st : Int)
      some ({ t with
                current_entry := some e
                start_time := some st
                elapsed_seconds := elapsed
                state := TrackerState.RUNNING
                timer_running := true },
            [TrackerEvent.state_changed TrackerState.RUNNING,
             TrackerEvent.time_updated elapsed])

/-- TimeTracker construction: initialize the fields, then run crash
recovery against the persisted open entry, if any. -/
def TimeTracker.new (active : Option TimeEntry) (now : Nat) :
    Option (TimeTracker × List TrackerEvent) :=
  TimeTracker.init.recover_active_entry active now

/-! ## Tracker theorems -/

/-- C1: stopping from RUNNING or PAUSED finalizes any in-progress pause
into paused_duration, writes duration = (end - start) - paused_duration
floored at 0, the mean of the recorded activity samples (0 if none),
the end timestamp and the notes to the entry, persists the update,
resets all in-memory accumulators, moves to STOPPED and returns the
finalized entry id. -/
theorem stop_finalizes_entry (t : TimeTracker) (notes : String) (now st : Nat) (e : TimeEntry)
    (hs : t.state = TrackerState.RUNNING ∨ t.state = TrackerState.PAUSED)
    (hst : t.start_time = some st) (he : t.current_entry = some e) :
    t.stop notes now =
      some ({ state := TrackerState.STOPPED
              current_entry := none
              start_time := none
              pause_time := none
              paused_duration := 0
              elapsed_seconds := 0
              activity_samples := []
              timer_running := false },
            [TrackerEvent.state_changed TrackerState.STOPPED, TrackerEvent.entry_saved e.id],
            [DbOp.update_time_entry
              { e with
                  end_time := some now
                  duration_seconds := max 0 (((now : Int) - (st : Int)) - t.final_paused now)
                  activity_percentage := mean_activity t.activity_samples
                  notes := notes }],
            e.id) := by
  rcases hs with h | h <;> simp [TimeTracker.stop, h, hst, he]

def entryC1 : TimeEntry :=
  { id := some 7, task_id := 3, start_time := some 10, created_at := some 10 }

def trackerC1 : TimeTracker :=
  { state := TrackerState.RUNNING, current_entry := some entryC1, start_time := some 10,
    pause_time := none, paused_duration := 4, elapsed_seconds := 0,
    activity_samples := [50, 100], timer_running := true }

/-- Concrete run of C1: stop at t=100 a session started at t=10 with
4s paused and samples 50, 100 gives duration 86 and mean activity 75. -/
theorem stop_finalizes_entry_witness :
    trackerC1.stop "done" 100 =
      some ({ state := TrackerState.STOPPED
              current_entry := none
              start_time := none
              pause_time := none
              paused_duration := 0
              elapsed_seconds := 0
              activity_samples := []
              timer_running := false },
            [TrackerEvent.state_changed TrackerState.STOPPED,
             TrackerEvent.entry_saved (some 7)],
            [DbOp.update_time_entry
              { entryC1 with
                  end_time := some 100
                  duration_seconds := 86
                  activity_percentage := 75
                  notes := "done" }],
            some 7) := by
  have h := stop_finalizes_entry trackerC1 "done" 100 10 entryC1 (Or.inl rfl) rfl rfl
  refine h.trans ?_
  norm_num [trackerC1, entryC1, TimeTracker.final_paused, mean_activity]
  exact List.cons_ne_nil 50 [100]

/-- C2: start while RUNNING, pause outside RUNNING, resume outside
PAUSED and stop outside RUNNING or PAUSED all return failure, change no
component of the tracker state, emit no event and issue no database
operation. -/
theorem invalid_transitions_are_noops (t : TimeTracker) (task_id now new_id : Nat)
    (notes : String) :
    (t.state = TrackerState.RUNNING → t.start task_id now new_id = some (t, [], [], false)) ∧
    (t.state ≠ TrackerState.RUNNING → t.pause now = (t, [], [], false)) ∧
    (t.state ≠ TrackerState.PAUSED → t.resume now = some (t, [], [], false)) ∧
    (t.state = TrackerState.STOPPED → t.stop notes now = some (t, [], [], none)) := by
  refine ⟨fun h => ?_, fun h => ?_, fun h => ?_, fun h => ?_⟩ <;>
    simp [TimeTracker.start, TimeTracker.pause, TimeTracker.resume, TimeTracker.stop, h]

def trackerR : TimeTracker :=
  { state := TrackerState.RUNNING, current_entry := some entryC1, start_time := some 10,
    pause_time := none, paused_duration := 0, elapsed_seconds := 5,
    activity_samples := [], timer_running := true }

/-- Concrete run of C2 on a running tracker and on the stopped initial
tracker. -/
theorem invalid_transitions_are_noops_witness :
    trackerR.start 5 20 77 = some (trackerR, [], [], false) ∧
    TimeTracker.init.pause 20 = (TimeTracker.init, [], [], false) ∧
    TimeTracker.init.resume 20 = some (TimeTracker.init, [], [], false) ∧
    TimeTracker.init.stop "x" 20 = some (TimeTracker.init, [], [], none) :=
  ⟨(invalid_transitions_are_noops trackerR 5 20 77 "x").1 rfl,
   (invalid_transitions_are_noops TimeTracker.init 5 20 77 "x").2.1 (by decide),
   (invalid_transitions_are_noops TimeTracker.init 5 20 77 "x").2.2.1 (by decide),
   (invalid_transitions_are_noops TimeTracker.init 5 20 77 "x").2.2.2 rfl⟩

/-- C3: on construction, a persisted open entry with start time st is
adopted with elapsed_seconds = now - st, paused duration kept at its
initial 0, state RUNNING and the 1-second tick restarted; with no open
entry the tracker starts STOPPED with all accumulators zero. -/
theorem recovery_adopts_open_entry (active : Option TimeEntry) (now : Nat) :
    (∀ e st, active = some e → e.start_time = some st →
        TimeTracker.new active now =
          some ({ TimeTracker.init with
                    current_entry := some e
                    start_time := some st
                    elapsed_seconds := (now : Int) - (st : Int)
                    state := TrackerState.RUNNING
                    timer_running := true },
                [TrackerEvent.state_changed TrackerState.RUNNING,
                 TrackerEvent.time_updated ((now : Int) - (st : Int))])) ∧
    (active = none → TimeTracker.new active now = some (TimeTracker.init, [])) ∧
    TimeTracker.init.state = TrackerState.STOPPED ∧
    TimeTracker.init.paused_duration = 0 ∧
    TimeTracker.init.elapsed_seconds = 0 ∧
    TimeTracker.init.activity_samples = [] ∧
    TimeTracker.init.current_entry = none := by
  refine ⟨fun e st ha hst => ?_, fun ha => ?_, rfl, rfl, rfl, rfl, rfl⟩
  · subst ha
    simp [TimeTracker.new, TimeTracker.recover_active_entry, hst]
  · subst ha
    rfl

def entryR : TimeEntry :=
  { id := some 5, task_id := 2, start_time := some 40, created_at := some 40 }

/-- Concrete run of C3: recovery at t=100 of an entry started at t=40
yields elapsed 60 and RUNNING; recovery with no open entry yields the
stopped initial tracker. -/
theorem recovery_adopts_open_entry_witness :
    TimeTracker.new (some entryR) 100 =
      some ({ TimeTracker.init with
                current_entry := some entryR
                start_time := some 40
                elapsed_seconds := 60
                state := TrackerState.RUNNING
                timer_running := true },
            [TrackerEvent.state_changed TrackerState.RUNNING,
             TrackerEvent.time_updated 60]) ∧
    TimeTracker.new none 100 = some (TimeTracker.init, []) :=
  ⟨((recovery_adopts_open_entry (some entryR) 100).1 entryR 40 rfl rfl).trans (by decide),
   (recovery_adopts_open_entry (none : Option TimeEntry) 100).2.1 rfl⟩

/-- C10: start called while PAUSED resumes the existing session and
ignores the passed task id entirely: the result does not depend on it,
the current entry, its persisted record, the start timestamp, the
samples and the elapsed counter are unchanged, and only the
paused-duration accumulator, the pause timestamp, the state and the
tick timer change. -/
theorem start_while_paused_ignores_task_id (t : TimeTracker) (tid1 tid2 now new_id p : Nat)
    (hs : t.state = TrackerState.PAUSED) (hp : t.pause_time = some p) :
    t.start tid1 now new_id = t.start tid2 now new_id ∧
    t.start tid1 now new_id =
      some ({ t with
                paused_duration := t.paused_duration + ((now : Int) - (p : Int))
                pause_time := none
                state := TrackerState.RUNNING
                timer_running := true },
            [TrackerEvent.state_changed TrackerState.RUNNING], [], true) := by
  have h : ∀ tid : Nat, t.start tid now new_id =
      some ({ t with
                paused_duration := t.paused_duration + ((now : Int) - (p : Int))
                pause_time := none
                state := TrackerState.RUNNING
                timer_running := true },
            [TrackerEvent.state_changed TrackerState.RUNNING], [], true) := by
    intro tid
    simp [TimeTracker.start, hs, hp]
  exact ⟨(h tid1).trans (h tid2).symm, h tid1⟩

def trackerP : TimeTracker :=
  { state := TrackerState.PAUSED, current_entry := some entryC1, start_time := some 10,
    pause_time := some 60, paused_duration := 4, elapsed_seconds := 50,
    activity_samples := [50], timer_running := false }

/-- Concrete run of C10: starting task 3 or task 8 at t=90 on a tracker
paused at t=60 gives the same resumed state with 34s of accumulated
pause and the entry untouched. -/
theorem start_while_paused_ignores_task_id_witness :
    trackerP.start 3 90 99 = trackerP.start 8 90 99 ∧
    trackerP.start 3 90 99 =
      some ({ trackerP with
                paused_duration := 34
                pause_time := none
                state := TrackerState.RUNNING
                timer_running := true },
            [TrackerEvent.state_changed TrackerState.RUNNING], [], true) := by
  have h := start_while_paused_ignores_task_id trackerP 3 8 90 99 60 rfl rfl
  exact ⟨h.1, h.2.trans (by decide)⟩

/-! ## IdleDetector (src/core/idle_detector.py) -/

/-- State of the idle detector. -/
structure IdleDetector where
  threshold_seconds : Nat
  is_enabled : Bool
  is_idle : Bool
  was_notified : Bool
deriving DecidableEq, Repr

/-- Qt signals emitted by IdleDetector. -/
inductive IdleEvent
  | idle_threshold_reached
  | activity_resumed
deriving DecidableEq, Repr

/-- IdleDetector.on_idle_detected: one step of the hysteresis state
machine; at most one event per call. -/
def IdleDetector.on_idle_detected (d : IdleDetector) (idle_seconds : Nat) :
    IdleDetector × Option IdleEvent :=
  if d.is_enabled = false then
    (d, none)
  else if d.threshold_seconds ≤ idle_seconds then
    if d.was_notified = false then
      ({ d with is_idle := true, was_notified := true }, some IdleEvent.idle_threshold_reached)
    else
      (d, none)
  else
    if d.was_notified = true ∧ idle_seconds = 0 then
      ({ d with is_idle := false, was_notified := false }, some IdleEvent.activity_resumed)
    else
      (d, none)

/-- Sequence of on_idle_detected calls, collecting the emitted events. -/
def IdleDetector.run (d : IdleDetector) : List Nat → IdleDetector × List IdleEvent
  | [] => (d, [])
  | n :: ns =>
    let step := d.on_idle_detected n
    let rest := step.1.run ns
    (rest.1, step.2.toList ++ rest.2)

/-- While already notified, calls with nonzero idle seconds change
nothing and emit nothing. -/
theorem IdleDetector.run_noop_of_notified (d : IdleDetector) (ns : List Nat)
    (hnot : d.was_notified = true) (hnz : ∀ n ∈ ns, n ≠ 0) :
    d.run ns = (d, []) := by
  induction ns with
  | nil => rfl
  | cons n ns ih =>
    have hn : n ≠ 0 := hnz n (List.mem_cons_self n ns)
    have hstep : d.on_idle_detected n = (d, none) := by
      by_cases he : d.is_enabled = false <;>
        by_cases hth : d.threshold_seconds ≤ n <;>
          simp [IdleDetector.on_idle_detected, he, hth, hnot, hn]
    simp [IdleDetector.run, hstep, ih (fun k hk => hnz k (List.mem_cons_of_mem n hk))]

/-- While not notified, calls below the threshold change nothing and
emit nothing. -/
theorem IdleDetector.run_noop_below_threshold (d : IdleDetector) (ns : List Nat)
    (hnot : d.was_notified = false) (hlt : ∀ n ∈ ns, n < d.threshold_seconds) :
    d.run ns = (d, []) := by
  induction ns with
  | nil => rfl
  | cons n ns ih =>
    have hn : n < d.threshold_seconds := hlt n (List.mem_cons_self n ns)
    have hstep : d.on_idle_detected n = (d, none) := by
      by_cases he : d.is_enabled = false <;>
        simp [IdleDetector.on_idle_detected, he, hnot, Nat.not_le.mpr hn]
    simp [IdleDetector.run, hstep, ih (fun k hk => hlt k (List.mem_cons_of_mem n hk))]

/-- C5: over a single continuous idle episode (idle seconds never back
at 0) that crosses the threshold, idle_threshold_reached is emitted
exactly once, and nothing is emitted before the first call at or above
the threshold. -/
theorem idle_threshold_reached_fires_once (d : IdleDetector) (ns : List Nat)
    (hen : d.is_enabled = true) (hnot : d.was_notified = false)
    (hnz : ∀ n ∈ ns, n ≠ 0)
    (hcross : ∃ n ∈ ns, d.threshold_seconds ≤ n) :
    (d.run ns).2.count IdleEvent.idle_threshold_reached = 1 ∧
    (d.run (ns.takeWhile (fun n => n < d.threshold_seconds))).2 = [] := by
  constructor
  · revert hnz hcross
    induction ns with
    | nil =>
      intro _ hcross
      simp at hcross
    | cons n ns ih =>
      intro hnz hcross
      by_cases hth : d.threshold_seconds ≤ n
      · have hstep : d.on_idle_detected n =
            ({ d with is_idle := true, was_notified := true },
             some IdleEvent.idle_threshold_reached) := by
          simp [IdleDetector.on_idle_detected, hen, hnot, hth]
        have habs := IdleDetector.run_noop_of_notified
          { d with is_idle := true, was_notified := true } ns rfl
          (fun k hk => hnz k (List.mem_cons_of_mem n hk))
        simp [IdleDetector.run, hstep, habs]
      · have hn : n ≠ 0 := hnz n (List.mem_cons_self n ns)
        have hstep : d.on_idle_detected n = (d, none) := by
          simp [IdleDetector.on_idle_detected, hen, hnot, hth, hn]
        have hcross2 : ∃ k ∈ ns, d.threshold_seconds ≤ k := by
          obtain ⟨k, hk, hkth⟩ := hcross
          rcases List.mem_cons.mp hk with h | h
          · exact absurd (h ▸ hkth) hth
          · exact ⟨k, h, hkth⟩
        simpa [IdleDetector.run, hstep] using
          ih (fun k hk => hnz k (List.mem_cons_of_mem n hk)) hcross2
  · have hall : ∀ k ∈ ns.takeWhile (fun n => n < d.threshold_seconds),
        k < d.threshold_seconds := by
      intro k hk
      simpa using List.mem_takeWhile_imp hk
    simp [IdleDetector.run_noop_below_threshold d _ hnot hall]

def idleD : IdleDetector :=
  { threshold_seconds := 300, is_enabled := true, is_idle := false, was_notified := false }

/-- Concrete run of C5: idle seconds 100, 200, 300, 301, 302 fire
idle_threshold_reached exactly once, and the prefix below the threshold
emits nothing. -/
theorem idle_threshold_reached_fires_once_witness :
    (idleD.run [100, 200, 300, 301, 302]).2.count IdleEvent.idle_threshold_reached = 1 ∧
    (idleD.run (([100, 200, 300, 301, 302] : List Nat).takeWhile
        (fun n => n < idleD.threshold_seconds))).2 = [] :=
  idle_threshold_reached_fires_once idleD [100, 200, 300, 301, 302] rfl rfl
    (by decide) ⟨300, by decide, by decide⟩

/-- C6: once notified, a step emits activity_resumed exactly when the
idle seconds are exactly 0 (clearing is_idle and was_notified); it is
emitted once per episode; calls with 0 < n below the threshold, and
calls below the threshold while not notified, emit nothing and change
no state. -/
theorem activity_resumed_iff_returns_to_zero (d : IdleDetector) (n : Nat) (ns : List Nat)
    (hen : d.is_enabled = true) (hth : 0 < d.threshold_seconds) :
    (d.was_notified = true →
      (((d.on_idle_detected n).2 = some IdleEvent.activity_resumed) ↔ n = 0)) ∧
    (d.was_notified = true → n = 0 →
      (d.on_idle_detected n).1 = { d with is_idle := false, was_notified := false }) ∧
    (0 < n → n < d.threshold_seconds → d.on_idle_detected n = (d, none)) ∧
    (d.was_notified = false → n < d.threshold_seconds → d.on_idle_detected n = (d, none)) ∧
    (d.was_notified = true → (∀ k ∈ ns, k < d.threshold_seconds) →
      (d.run ns).2.count IdleEvent.activity_resumed = if 0 ∈ ns then 1 else 0) := by
  refine ⟨fun hnot => ?_, fun hnot hn => ?_, fun hpos hlt => ?_, fun hnot hlt => ?_,
    fun hnot hall => ?_⟩
  · constructor
    · intro hev
      by_contra hn
      by_cases hge : d.threshold_seconds ≤ n <;>
        simp [IdleDetector.on_idle_detected, hen, hnot, hge, hn] at hev
    · intro hn
      subst hn
      simp [IdleDetector.on_idle_detected, hen, hnot, Nat.not_le.mpr hth]
  · subst hn
    simp [IdleDetector.on_idle_detected, hen, hnot, Nat.not_le.mpr hth]
  · have hn : n ≠ 0 := Nat.pos_iff_ne_zero.mp hpos
    by_cases hnot : d.was_notified = true <;>
      simp [IdleDetector.on_idle_detected, hen, hnot, Nat.not_le.mpr hlt, hn]
  · simp [IdleDetector.on_idle_detected, hen, hnot, Nat.not_le.mpr hlt]
  · revert hall
    induction ns with
    | nil => intro _; simp [IdleDetector.run]
    | cons k ks ih =>
      intro hall
      have hk : k < d.threshold_seconds := hall k (List.mem_cons_self k ks)
      by_cases hk0 : k = 0
      · subst hk0
        have hstep : d.on_idle_detected 0 =
            ({ d with is_idle := false, was_notified := false },
             some IdleEvent.activity_resumed) := by
          simp [IdleDetector.on_idle_detected, hen, hnot, Nat.not_le.mpr hth]
        have hrest := IdleDetector.run_noop_below_threshold
          { d with is_idle := false, was_notified := false } ks rfl
          (fun j hj => hall j (List.mem_cons_of_mem 0 hj))
        simp [IdleDetector.run, hstep, hrest]
      · have hstep : d.on_idle_detected k = (d, none) := by
          simp [IdleDetector.on_idle_detected, hen, hnot, Nat.not_le.mpr hk, hk0]
        have htail := ih (fun j hj => hall j (List.mem_cons_of_mem k hj))
        have h0k : ¬ (0 : Nat) = k := fun h => hk0 h.symm
        simp [IdleDetector.run, hstep, htail, List.mem_cons, h0k]

def idleDN : IdleDetector :=
  { threshold_seconds := 300, is_enabled := true, is_idle := true, was_notified := true }

/-- Concrete run of C6 on a notified detector: 0 emits
activity_resumed and clears the flags, 5 emits nothing and changes
nothing, and the episode 200, 0, 10, 0 emits activity_resumed once. -/
theorem activity_resumed_iff_returns_to_zero_witness :
    ((idleDN.on_idle_detected 0).2 = some IdleEvent.activity_resumed) ∧
    ¬ ((idleDN.on_idle_detected 5).2 = some IdleEvent.activity_resumed) ∧
    (idleDN.on_idle_detected 0).1 =
      { idleDN with is_idle := false, was_notified := false } ∧
    idleDN.on_idle_detected 5 = (idleDN, none) ∧
    (idleDN.run [200, 0, 10, 0]).2.count IdleEvent.activity_resumed = 1 := by
  have h := activity_resumed_iff_returns_to_zero idleDN 0 [200, 0, 10, 0] rfl (by decide)
  have h5 := activity_resumed_iff_returns_to_zero idleDN 5 [] rfl (by decide)
  exact ⟨(h.1 rfl).mpr rfl,
    fun hc => absurd ((h5.1 rfl).mp hc) (by decide),
    h.2.1 rfl rfl,
    h5.2.2.1 (by decide) (by decide),
    (h.2.2.2.2 rfl (by decide)).trans (by decide)⟩

/-! ## ActivityMonitor (src/core/activity_monitor.py) -/

/-- In-memory state of the ActivityMonitor. -/
structure ActivityMonitor where
  sample_interval : Nat
  is_running : Bool
  active_seconds_in_interval : Nat
  interval_start_time : Option Nat
  continuous_idle_seconds : Nat
  current_second_active : Bool
  last_second_check : Nat
deriving DecidableEq, Repr

/-- Qt signals emitted by ActivityMonitor. -/
inductive AmEvent
  | activity_updated (pct : Rat)
  | idle_detected (n : Nat)
deriving DecidableEq, Repr

/-- ActivityMonitor.reset_interval. -/
def ActivityMonitor.reset_interval (m : ActivityMonitor) (now : Nat) : ActivityMonitor :=
  { m with
      interval_start_time := some now
      active_seconds_in_interval := 0
      current_second_active := false
      last_second_check := now }

/-- ActivityMonitor check-timer callback: finalize the prior second,
then evaluate interval completion, then report continuous idle. The
wall clock now (whole seconds) serves both the datetime and the
time.time reads of the source. -/
def ActivityMonitor.on_check_timer (m : ActivityMonitor) (now : Nat) :
    ActivityMonitor × List AmEvent :=
  let m1 :=
    if m.last_second_check < now then
      if m.current_second_active then
        { m with
            active_seconds_in_interval := m.active_seconds_in_interval + 1
            current_second_active := false
            last_second_check := now }
      else
        { m with
            continuous_idle_seconds := m.continuous_idle_seconds + 1
            current_second_active := false
            last_second_check := now }
    else m
  let step2 : ActivityMonitor × List AmEvent :=
    match m1.interval_start_time with
    | some t0 =>
      if m1.sample_interval ≤ now - t0 then
        let percentage : Rat :=
          ((m1.active_seconds_in_interval : Rat) / (m1.sample_interval : Rat)) * 100
        (m1.reset_interval now, [AmEvent.activity_updated (min 100 percentage)])
      else (m1, [])
    | none => (m1, [])
  let idle_events :=
    if 0 < step2.1.continuous_idle_seconds then
      [AmEvent.idle_detected step2.1.continuous_idle_seconds]
    else []
  (step2.1, step2.2 ++ idle_events)

/-- C9: when the measurement interval of configured length I completes
with S active seconds counted (the prior second having been finalized
first), the check-timer emits activity percentage min(100, S / I * 100)
and resets the interval state: active seconds to 0 and interval start
to now. -/
theorem interval_completion_percentage (m : ActivityMonitor) (now t0 : Nat)
    (h0 : m.interval_start_time = some t0)
    (hI : 0 < m.sample_interval)
    (helapsed : m.sample_interval ≤ now - t0) :
    ((m.on_check_timer now).2.head? =
      some (AmEvent.activity_updated (min 100
        (((m.active_seconds_in_interval +
            (if m.last_second_check < now ∧ m.current_second_active = true
             then 1 else 0) : Nat) : Rat) / (m.sample_interval : Rat) * 100)))) ∧
    (m.on_check_timer now).1.active_seconds_in_interval = 0 ∧
    (m.on_check_timer now).1.interval_start_time = some now := by
  by_cases hsec : m.last_second_check < now <;>
    by_cases hact : m.current_second_active = true <;>
      simp [ActivityMonitor.on_check_timer, ActivityMonitor.reset_interval,
        h0, helapsed, hsec, hact]

def monitorC9 : ActivityMonitor :=
  { sample_interval := 60, is_running := true, active_seconds_in_interval := 30,
    interval_start_time := some 0, continuous_idle_seconds := 0,
    current_second_active := false, last_second_check := 60 }

/-- Concrete run of C9: a completed 60s interval with 30 active seconds
emits activity 50 and resets the interval to start at now. -/
theorem interval_completion_percentage_witness :
    ((monitorC9.on_check_timer 60).2.head? = some (AmEvent.activity_updated 50)) ∧
    (monitorC9.on_check_timer 60).1.active_seconds_in_interval = 0 ∧
    (monitorC9.on_check_timer 60).1.interval_start_time = some 60 := by
  have h := interval_completion_percentage monitorC9 60 0 rfl (by decide) (by decide)
  refine ⟨h.1.trans ?_, h.2.1, h.2.2⟩
  norm_num [monitorC9]

/-! ## ScreenshotCapture (src/core/screenshot.py) -/

/-- App window title excluded from capture. -/
def APP_WINDOW_TITLE : String := "Desktop Time Tracker"

/-- Delay before the first screenshot, in seconds. -/
def STARTUP_DELAY : Nat := 60

/-- Retry delay when a screenshot is skipped, in seconds. -/
def RETRY_DELAY : Nat := 120

/-- Decide whether p is an initial segment of l (character lists). -/
def startsWithL : List Char → List Char → Bool
  | [], _ => true
  | _ :: _, [] => false
  | c :: cs, d :: ds => c = d && startsWithL cs ds

/-- Decide whether needle occurs inside hay (character lists); models
the Python substring test APP_WINDOW_TITLE in active_title. -/
def containsSub (needle : List Char) : List Char → Bool
  | [] => startsWithL needle []
  | d :: ds => startsWithL needle (d :: ds) || containsSub needle ds

/-- In-memory state of the ScreenshotCapture object.
capture_timer_running models the repeating QTimer; pending_retries
models the armed single-shot retries by their fire times. -/
structure ScreenshotCapture where
  interval_seconds : Nat
  quality : Nat
  is_running : Bool
  current_activity : Rat
  start_time : Option Nat
  capture_timer_running : Bool
  pending_retries : List Nat
deriving DecidableEq, Repr

/-- Qt signals emitted by ScreenshotCapture. -/
inductive ScEvent
  | screenshot_taken (path : String) (activity : Rat)
  | capture_error (msg : String)
  | screenshot_skipped (reason : String)
deriving DecidableEq, Repr

/-- Environment of one capture attempt: the wall clock, the foreground
window title, availability of the mss library, and the outcome of the
grab-encode-write block (the written file path, or the raised error
message); path construction and image encoding are file-system effects
abstracted into write_result. -/
structure CaptureEnv where
  now : Nat
  active_window_title : String
  mss_available : Bool
  write_result : Except String String
deriving Repr

/-- ScreenshotCapture should-skip-capture predicate, evaluated in
order: startup delay first, then the self-window exclusion. -/
def ScreenshotCapture.should_skip_capture (s : ScreenshotCapture) (now : Nat)
    (active_title : String) : Option String :=
  let startup_check : Option String :=
    match s.start_time with
    | some st =>
      let elapsed := now - st
      if elapsed < STARTUP_DELAY then
        some ("startup delay (" ++ toString (STARTUP_DELAY - elapsed) ++ "s remaining)")
      else none
    | none => none
  match startup_check with
  | some reason => some reason
  | none =>
    if containsSub APP_WINDOW_TITLE.toList active_title.toList then
      some "timer app is active window"
    else none

/-- ScreenshotCapture.capture_now: returns the written file path, or
none on unavailability, skip or failure, together with the emitted
events. -/
def ScreenshotCapture.capture_now (s : ScreenshotCapture) (env : CaptureEnv) :
    Option String × List ScEvent :=
  if env.mss_available = false then
    (none, [ScEvent.capture_error "mss library not available"])
  else
    match s.should_skip_capture env.now env.active_window_title with
    | some reason => (none, [ScEvent.screenshot_skipped reason])
    | none =>
      match env.write_result with
      | Except.ok filepath =>
        (some filepath, [ScEvent.screenshot_taken filepath s.current_activity])
      | Except.error e => (none, [ScEvent.capture_error e])

/-- ScreenshotCapture capture-timer callback: attempt a capture; on a
none result while running, stop the interval timer and arm a one-shot
retry at now + RETRY_DELAY. -/
def ScreenshotCapture.on_capture_timer (s : ScreenshotCapture) (env : CaptureEnv) :
    ScreenshotCapture × List ScEvent :=
  let attempt := s.capture_now env
  if attempt.1 = none ∧ s.is_running = true then
    ({ s with
         capture_timer_running := false
         pending_retries := s.pending_retries ++ [env.now + RETRY_DELAY] },
     attempt.2)
  else
    (s, attempt.2)

/-- ScreenshotCapture retry-after-skip callback: the fired single shot
is consumed; if still running, attempt one capture and restart the
regular interval timer regardless of the outcome. -/
def ScreenshotCapture.on_retry_after_skip (s : ScreenshotCapture) (env : CaptureEnv) :
    ScreenshotCapture × List ScEvent :=
  let s1 := { s with pending_retries := s.pending_retries.tail }
  if s1.is_running = true then
    let attempt := s1.capture_now env
    ({ s1 with capture_timer_running := true }, attempt.2)
  else
    (s1, [])

/-- Every capture attempt reports exactly one outcome event. -/
theorem ScreenshotCapture.capture_now_one_event (s : ScreenshotCapture) (env : CaptureEnv) :
    (s.capture_now env).2.length = 1 := by
  unfold ScreenshotCapture.capture_now
  by_cases hm : env.mss_available = false
  · simp [hm]
  · simp only [hm]
    cases s.should_skip_capture env.now env.active_window_title <;> simp
    cases env.write_result <;> simp

def scC4 : ScreenshotCapture :=
  { interval_seconds := 600, quality := 70, is_running := true, current_activity := 0,
    start_time := some 0, capture_timer_running := true, pending_retries := [] }

def envC4 : CaptureEnv :=
  { now := 1000, active_window_title := "Editor", mss_available := true,
    write_result := Except.error "disk full" }

/-- C4: evaluation of the capture-timer callback on a failed (not
skipped) capture while running: the error event is emitted, but the
interval timer is stopped and the one-shot retry is armed at
now + RETRY_DELAY all the same, because the callback keys the retry on
a none result, which failures also produce. This contradicts the claim
that a failure leaves the regular interval timer to continue unchanged
with no retry armed. -/
theorem capture_failure_arms_retry :
    (scC4.on_capture_timer envC4).2 = [ScEvent.capture_error "disk full"] ∧
    (scC4.on_capture_timer envC4).1.capture_timer_running = false ∧
    (scC4.on_capture_timer envC4).1.pending_retries = [1120] := by
  decide

/-- C7: a skipped capture while running stops the interval timer and
arms exactly one retry at skip time plus RETRY_DELAY; when that retry
fires it makes exactly one capture attempt and restarts the regular
interval timer regardless of the attempt outcome, leaving no retry
armed. -/
theorem skip_arms_single_retry (s : ScreenshotCapture) (env : CaptureEnv) (reason : String)
    (hrun : s.is_running = true) (hmss : env.mss_available = true)
    (hskip : s.should_skip_capture env.now env.active_window_title = some reason)
    (hpend : s.pending_retries = []) :
    (s.on_capture_timer env).2 = [ScEvent.screenshot_skipped reason] ∧
    (s.on_capture_timer env).1.capture_timer_running = false ∧
    (s.on_capture_timer env).1.pending_retries = [env.now + RETRY_DELAY] ∧
    ∀ env2 : CaptureEnv,
      ((s.on_capture_timer env).1.on_retry_after_skip env2).2.length = 1 ∧
      ((s.on_capture_timer env).1.on_retry_after_skip env2).1.capture_timer_running = true ∧
      ((s.on_capture_timer env).1.on_retry_after_skip env2).1.pending_retries = [] := by
  have hcap : s.capture_now env = (none, [ScEvent.screenshot_skipped reason]) := by
    simp [ScreenshotCapture.capture_now, hmss, hskip]
  have hct : s.on_capture_timer env =
      ({ s with
           capture_timer_running := false
           pending_retries := [env.now + RETRY_DELAY] },
       [ScEvent.screenshot_skipped reason]) := by
    simp [ScreenshotCapture.on_capture_timer, hcap, hrun, hpend]
  refine ⟨by rw [hct], by rw [hct], by rw [hct], fun env2 => ?_⟩
  rw [hct]
  refine ⟨?_, ?_, ?_⟩ <;>
    simp [ScreenshotCapture.on_retry_after_skip, hrun,
      ScreenshotCapture.capture_now_one_event]

def scC7 : ScreenshotCapture :=
  { interval_seconds := 600, quality := 70, is_running := true, current_activity := 0,
    start_time := some 0, capture_timer_running := true, pending_retries := [] }

def envC7 : CaptureEnv :=
  { now := 1000, active_window_title := "Desktop Time Tracker", mss_available := true,
    write_result := Except.ok "shots/a.jpg" }

/-- Concrete run of C7: a self-window skip at t=1000 arms one retry at
t=1120 and stops the timer; the retry makes one attempt, restarts the
timer and leaves no retry armed. -/
theorem skip_arms_single_retry_witness :
    (scC7.on_capture_timer envC7).2 =
      [ScEvent.screenshot_skipped "timer app is active window"] ∧
    (scC7.on_capture_timer envC7).1.capture_timer_running = false ∧
    (scC7.on_capture_timer envC7).1.pending_retries = [1120] ∧
    ((scC7.on_capture_timer envC7).1.on_retry_after_skip envC7).2.length = 1 ∧
    ((scC7.on_capture_timer envC7).1.on_retry_after_skip envC7).1.capture_timer_running = true ∧
    ((scC7.on_capture_timer envC7).1.on_retry_after_skip envC7).1.pending_retries = [] := by
  have h := skip_arms_single_retry scC7 envC7 "timer app is active window" rfl rfl
    (by decide) rfl
  have h4 := h.2.2.2 envC7
  exact ⟨h.1, h.2.1, h.2.2.1.trans (by decide), h4.1, h4.2.1, h4.2.2⟩

def scC8 : ScreenshotCapture :=
  { interval_seconds := 60, quality := 70, is_running := true, current_activity := 0,
    start_time := some 0, capture_timer_running := true, pending_retries := [] }

/-- C8 counterexample: the skip reasons the code produces are not the
ones the claim quotes. At t=30 the startup reason is
"startup delay (30s remaining)", not of the form
"startup delay, Ns remaining"; past the startup delay with a
foreground title merely containing the app title, the reason is
"timer app is active window", not "app is active window". -/
theorem skip_reason_strings_counterexample :
    scC8.should_skip_capture 30 "Editor" = some "startup delay (30s remaining)" ∧
    ("startup delay (30s remaining)" : String) ≠ "startup delay, 30s remaining" ∧
    scC8.should_skip_capture 100 "xx Desktop Time Tracker xx" =
      some "timer app is active window" ∧
    ("timer app is active window" : String) ≠ "app is active window" := by
  decide

/-- C8 (amended): the skip predicate is evaluated in order: within the
startup delay the attempt is skipped with reason
"startup delay (Ns remaining)"; otherwise, if the foreground window
title contains the app window title, it is skipped with reason
"timer app is active window"; if neither holds (as at t=61 with the
tracker not focused) the capture proceeds. -/
theorem skip_predicate_order (s : ScreenshotCapture) (now st : Nat) (title : String)
    (hst : s.start_time = some st) (hle : st ≤ now) :
    (now - st < STARTUP_DELAY →
      s.should_skip_capture now title =
        some ("startup delay (" ++ toString (STARTUP_DELAY - (now - st)) ++ "s remaining)")) ∧
    (STARTUP_DELAY ≤ now - st →
      containsSub APP_WINDOW_TITLE.toList title.toList = true →
      s.should_skip_capture now title = some "timer app is active window") ∧
    (STARTUP_DELAY ≤ now - st →
      containsSub APP_WINDOW_TITLE.toList title.toList = false →
      (s.should_skip_capture now title = none ∧
       ∀ env : CaptureEnv, env.now = now → env.active_window_title = title →
         env.mss_available = true → ∀ fp, env.write_result = Except.ok fp →
           s.capture_now env =
             (some fp, [ScEvent.screenshot_taken fp s.current_activity]))) := by
  refine ⟨fun hlt => ?_, fun hge hc => ?_, fun hge hc => ⟨?_, ?_⟩⟩
  · simp [ScreenshotCapture.should_skip_capture, hst, hlt]
  · simp only [String.toList] at hc
    simp [ScreenshotCapture.should_skip_capture, hst, Nat.not_lt.mpr hge, hc]
  · simp only [String.toList] at hc
    simp [ScreenshotCapture.should_skip_capture, hst, Nat.not_lt.mpr hge, hc]
  · simp only [String.toList] at hc
    intro env hnow htitle hmss fp hwr
    have hskip : s.should_skip_capture env.now env.active_window_title = none := by
      rw [hnow, htitle]
      simp [ScreenshotCapture.should_skip_capture, hst, Nat.not_lt.mpr hge, hc]
    simp [ScreenshotCapture.capture_now, hmss, hskip, hwr]

def envC8 : CaptureEnv :=
  { now := 61, active_window_title := "Editor", mss_available := true,
    write_result := Except.ok "shots/a.jpg" }

/-- Concrete run of amended C8: with interval 60 and startup delay 60,
the callback at t=30 skips with the startup-delay reason, and at t=61
with the tracker window not focused it captures. -/
theorem skip_predicate_order_witness :
    scC8.should_skip_capture 30 "Editor" = some "startup delay (30s remaining)" ∧
    scC8.capture_now envC8 =
      (some "shots/a.jpg",
       [ScEvent.screenshot_taken "shots/a.jpg" scC8.current_activity]) := by
  have h1 := (skip_predicate_order scC8 30 0 "Editor" rfl (by decide)).1 (by decide)
  have h3 := ((skip_predicate_order scC8 61 0 "Editor" rfl (by decide)).2.2
    (by decide) (by decide)).2 envC8 rfl rfl rfl "shots/a.jpg" rfl
  exact ⟨h1.trans (by decide), h3⟩
